import Mathlib

/-!
Shallow embedding of `src/webcam.py` from the AdaIN-TF repository: the
`StyleWindow` control surface and the `main` capture/stylize/output loop.

Pixel buffers are modelled symbolically by provenance: the external image
operations (OpenCV resize/cvtColor, NumPy noise, SciPy Gaussian blur, the
style loader `utils.get_img_crop`, and the inference engine) are not part of
this repository's core and are treated as opaque constructors, exactly as the
spec treats them ("black-box" collaborators).  The claims under verification
are about which values flow where, which state fields each mutator touches,
and the shapes of the buffers, all of which this embedding captures.
-/

namespace Webcam

/-- Symbolic pixel buffers, tracked by provenance.  `camera` is a raw frame
(height, width, pixel data); the other constructors record the external image
operations applied by `webcam.py`:
* `resizedScale src fx fy` — `cv2.resize(src, None, fx=fx, fy=fy)`;
* `resizedTo src w h` — `cv2.resize(src, (w, h))` (OpenCV dsize is (width, height));
* `noise seed h w` — `np.random.randint(0, 256, (h, w, 3), np.uint8)` with the
  random source summarised by `seed`;
* `blur src` — `scipy.ndimage.gaussian_filter(src, sigma=0.5)`;
* `toRGB` / `toBGR` — `cv2.cvtColor` with `COLOR_BGR2RGB` / `COLOR_RGB2BGR`;
* `styleCrop file resize crop` — `utils.get_img_crop(file, resize=.., crop=..)`
  (modelled from the spec: `utils.py` is not under `src/`; §4.1 treats loading
  as a pure function of the path and the two sizes);
* `predicted` / `predictedInterp` — outputs of `AdaINference.predict` and
  `predict_interpolate` (external Inference Engine);
* `preserveColors ref tgt` — `utils.preserve_colors` (external, spec §4.3
  step 4: a pure function `(referenceImage, targetImage) -> recoloredImage`);
* `hstack l r` — `np.hstack([l, r])`. -/
inductive Img where
  | camera (height width : Nat) (data : List Nat)
  | resizedScale (src : Img) (fx fy : ℚ)
  | resizedTo (src : Img) (width height : Nat)
  | noise (seed height width : Nat)
  | blur (src : Img)
  | toRGB (src : Img)
  | toBGR (src : Img)
  | styleCrop (file : String) (resize crop : Nat)
  | predicted (content style : Img) (alpha : ℚ)
  | predictedInterp (content style0 style1 : Img) (w0 w1 alpha : ℚ)
  | preserveColors (ref tgt : Img)
  | hstack (l r : Img)
deriving DecidableEq, Repr

/-- Rounding used by `cv2.resize` when the destination size is computed from
scale factors: `round(fx * cols)`, `round(fy * rows)`.  For the non-negative
factors that arise here, `round(q * n) = floor(q * n + 1/2)
= floor((2 * q.num * n + q.den) / (2 * q.den))`, written out on the
rational's numerator and denominator so it evaluates by integer arithmetic. -/
def scaleRound (q : ℚ) (n : Nat) : Nat :=
  ((2 * q.num * n + q.den) / (2 * (q.den : Int))).toNat

/-- The (height, width) of a symbolic buffer, following the documented output
shapes of each external operation.  `predicted`/`predictedInterp` keep the
content's shape (the engine is a black box; the spec's StylizedResult is
composited against the content frame's height, which is what the code relies
on).  `styleCrop` yields a `crop × crop` square (spec §4.1). -/
def shape : Img → Nat × Nat
  | .camera h w _ => (h, w)
  | .resizedScale src fx fy =>
      let s := shape src
      (scaleRound fy s.1, scaleRound fx s.2)
  | .resizedTo _ w h => (h, w)
  | .noise _ h w => (h, w)
  | .blur src => shape src
  | .toRGB src => shape src
  | .toBGR src => shape src
  | .styleCrop _ _ crop => (crop, crop)
  | .predicted content _ _ => shape content
  | .predictedInterp content _ _ _ _ _ => shape content
  | .preserveColors _ tgt => shape tgt
  | .hstack l r => ((shape l).1, (shape l).2 + (shape r).2)

/-- `utils.get_img_crop(style_file, resize=self.img_size, crop=self.crop_size)`.
Modelled from the spec: `utils.py` is not under `src/`; spec §4.1 specifies
`load(path, targetSize, cropSize) -> pixel buffer` as a deterministic load,
resize, crop pipeline, so the result is a pure function of its arguments. -/
def get_img_crop (file : String) (resize crop : Nat) : Img :=
  .styleCrop file resize crop

/-- State of `StyleWindow` (`src/webcam.py`, class `StyleWindow`).  The
Python `style_rgbs` list `[None, None]` is modelled by the two fields
`style_rgb0` and `style_rgb1` (slots 0 and 1).  `idx` is the attribute
`self.idx` set by `set_style`; `interp_weight` is only meaningful when
interpolation is on (Python creates the attribute lazily; here it always
exists, initialised to 1 as in `__init__`). -/
structure StyleWindow where
  style_imgs : List String
  style_rgb0 : Option Img
  style_rgb1 : Option Img
  img_size : Nat
  crop_size : Nat
  scale : ℚ
  alpha : ℚ
  idx : Nat
  interp_weight : ℚ
deriving DecidableEq, Repr

/-- Write slot `style_idx` of `style_rgbs`.  Python indexes the two-element
list `self.style_rgbs`; an index other than 0 or 1 would raise `IndexError`,
modelled by `none`. -/
def setSlot (w : StyleWindow) (style_idx : Nat) (img : Img) : Option StyleWindow :=
  match style_idx with
  | 0 => some { w with style_rgb0 := some img }
  | 1 => some { w with style_rgb1 := some img }
  | _ => none

/-- Read slot `style_idx` of `style_rgbs` (Python `self.style_rgbs[style_idx]`). -/
def getSlot (w : StyleWindow) (style_idx : Nat) : Option (Option Img) :=
  match style_idx with
  | 0 => some w.style_rgb0
  | 1 => some w.style_rgb1
  | _ => none

/-- `StyleWindow.set_style(idx, random, style_idx, window)`.
`rng` summarises the NumPy random source: `np.random.randint(n)` is modelled
as `rng % n`.  `self.style_imgs[self.idx]` raises `IndexError` when out of
range, modelled by `none`; the preview `show_style` call is display-only side
effect and carries no state. -/
def set_style (w : StyleWindow) (idx : Option Nat) (random : Bool) (rng : Nat)
    (style_idx : Nat) : Option StyleWindow :=
  let w := match idx with
    | some i => { w with idx := i }
    | none => w
  let w := if random then { w with idx := rng % w.style_imgs.length } else w
  match w.style_imgs[w.idx]? with
  | none => none
  | some style_file => setSlot w style_idx (get_img_crop style_file w.img_size w.crop_size)

/-- `StyleWindow.set_idx(idx)`: `self.set_style(idx)`. -/
def set_idx (w : StyleWindow) (idx : Nat) : Option StyleWindow :=
  set_style w (some idx) false 0 0

/-- `StyleWindow.set_size(size)`: `self.img_size = max(size, self.crop_size)`
then `self.set_style()`. -/
def set_size (w : StyleWindow) (size : Nat) : Option StyleWindow :=
  set_style { w with img_size := max size w.crop_size } none false 0 0

/-- `StyleWindow.set_crop_size(crop_size)`:
`self.crop_size = min(crop_size, self.img_size)` then `self.set_style()`. -/
def set_crop_size (w : StyleWindow) (crop_size : Nat) : Option StyleWindow :=
  set_style { w with crop_size := min crop_size w.img_size } none false 0 0

/-- `StyleWindow.set_scale(scale)`: `self.scale = scale / 100` (Python true
division; the trackbar delivers a non-negative integer). -/
def set_scale (w : StyleWindow) (scale : Nat) : StyleWindow :=
  { w with scale := (scale : ℚ) / 100 }

/-- `StyleWindow.set_alpha(alpha)`: `self.alpha = alpha / 100`. -/
def set_alpha (w : StyleWindow) (alpha : Nat) : StyleWindow :=
  { w with alpha := (alpha : ℚ) / 100 }

/-- `StyleWindow.set_interp(weight)`: `self.interp_weight = weight / 100`. -/
def set_interp (w : StyleWindow) (weight : Nat) : StyleWindow :=
  { w with interp_weight := (weight : ℚ) / 100 }

/-- Result of `StyleWindow.__init__`: the constructed state (or `none` when a
style load raised) and the list of trackbars created on the control panel, in
creation order. -/
structure InitResult where
  window : Option StyleWindow
  trackbars : List String
deriving Repr, DecidableEq

/-- `StyleWindow.__init__(style_path, img_size, scale, alpha, interpolate)`
(src/webcam.py lines 41-75).  `style_imgs` stands for `get_files(style_path)`
(external); `rng0`/`rng1` summarise the random source for the two start-up
`set_style(random=True)` calls.  The `index` trackbar is created only when the
catalog holds more than one image; `interp_weight` and the `interpolation`
trackbar plus the second style load happen only when `interpolate` is set. -/
def styleWindowInit (style_imgs : List String) (img_size : Nat) (scale alpha : ℚ)
    (interpolate : Bool) (rng0 rng1 : Nat) : InitResult :=
  let w : StyleWindow :=
    { style_imgs := style_imgs, style_rgb0 := none, style_rgb1 := none,
      img_size := img_size, crop_size := 256, scale := scale, alpha := alpha,
      idx := 0, interp_weight := 1 }
  let tbs := (if style_imgs.length > 1 then ["index"] else []) ++
    ["alpha", "size", "crop size", "scale"]
  match set_style w none true rng0 0 with
  | none => ⟨none, tbs⟩
  | some w =>
    if interpolate then
      let tbs := tbs ++ ["interpolation"]
      match set_style w none true rng1 1 with
      | none => ⟨none, tbs⟩
      | some w => ⟨some w, tbs⟩
    else ⟨some w, tbs⟩

/-! ### The main loop (src/webcam.py, `main`) -/

/-- The configuration flags `main` consults, resolved from `args`. -/
structure Config where
  noise : Bool
  randomN : Nat
  interpolate : Bool
  keep_colors0 : Bool
  concat : Bool
  video_out : Bool
  scale : ℚ
deriving Repr, DecidableEq

/-- `AdaINference.predict(content, style, alpha)` — the external Inference
Engine, a black box that may fail. -/
abbrev PredictFn := Img → Img → ℚ → Except String Img

/-- `AdaINference.predict_interpolate(content, [s0, s1], [w0, w1], alpha)` —
the external two-style engine call, with the weight list spelled out as the
two coefficients `w0` and `w1`. -/
abbrev InterpFn := Img → Img → Img → ℚ → ℚ → ℚ → Except String Img

/-- The attribute names ever assigned on a `StyleWindow` instance, collected
from `__init__` and every method of the class in src/webcam.py.  Note that
`style_rgb` (singular) is not among them: only the list `style_rgbs` is. -/
def styleWindowAttrs : List String :=
  ["style_imgs", "style_rgbs", "img_size", "crop_size", "scale", "alpha",
   "idx", "interp_weight"]

/-- The local variable names that `main` (src/webcam.py lines 111-212) ever
assigns.  `content_img` is not among them. -/
def mainAssignedLocals : List String :=
  ["ada_in", "style_window", "cap", "frame", "frame_resize", "img_shape",
   "fourcc", "out_shape", "video_writer", "fps", "keep_colors", "count",
   "ret", "image_rgb", "interp_weights", "stylized_rgb", "style_rgb_resized",
   "stylized_bgr", "key"]

/-- The keep-colors branch body (src/webcam.py line 162):
`style_window.style_rgb = preserve_colors(style_window.style_rgb, content_img)`.
Python evaluates the right-hand side first, left to right: the attribute read
`style_window.style_rgb` must resolve against the attributes ever assigned on
`StyleWindow`, and the bare name `content_img` against the locals of `main`;
an unresolved attribute raises `AttributeError`, an unresolved name
`NameError`.  Were both reads to resolve, the statement would only assign the
attribute `style_rgb`, which no other code reads (inference reads
`style_rgbs[0]`), so success would leave the modelled state unchanged. -/
def keepColorsStep : Except String Unit :=
  if "style_rgb" ∈ styleWindowAttrs then
    if "content_img" ∈ mainAssignedLocals then Except.ok ()
    else Except.error "NameError: name 'content_img' is not defined"
  else Except.error "AttributeError: 'StyleWindow' object has no attribute 'style_rgb'"

/-- The content image handed to inference (src/webcam.py lines 147-156):
resize the camera frame by the current content scale; in noise mode replace it
with uniform random noise of the *same shape* passed through a Gaussian blur
with sigma 0.5; convert BGR to RGB. -/
def contentInput (cfg : Config) (noiseSeed : Nat) (scale : ℚ) (frame : Img) : Img :=
  let frame_resize := Img.resizedScale frame scale scale
  let frame_resize :=
    if cfg.noise then
      Img.blur (Img.noise noiseSeed (shape frame_resize).1 (shape frame_resize).2)
    else frame_resize
  Img.toRGB frame_resize

/-- The single-style branch of the dispatcher (src/webcam.py lines 164-178):
`predict(image_rgb, style_rgbs[0], alpha)`, then, when concat mode is on, the
style image is resized to the stylized output's height and horizontally
stacked on its left (lines 175-178).  Passing a `None` style into the engine
fails. -/
def dispatchPredict (pE : PredictFn) (concatOn : Bool) (w : StyleWindow)
    (image_rgb : Img) : Except String Img :=
  match w.style_rgb0 with
  | none => Except.error "predict: style image is None"
  | some s0 =>
    match pE image_rgb s0 w.alpha with
    | .error e => .error e
    | .ok stylized_rgb =>
      .ok (if concatOn then
            Img.hstack
              (Img.resizedTo s0 (shape stylized_rgb).1 (shape stylized_rgb).1)
              stylized_rgb
          else stylized_rgb)

/-- The interpolation branch of the dispatcher (src/webcam.py lines 167-172):
`interp_weights = [interp_weight, 1 - interp_weight]`;
`predict_interpolate(image_rgb, style_rgbs, interp_weights, alpha)`. -/
def dispatchInterpolate (iE : InterpFn) (w : StyleWindow) (image_rgb : Img) :
    Except String Img :=
  match w.style_rgb0, w.style_rgb1 with
  | some s0, some s1 =>
      iE image_rgb s0 s1 w.interp_weight (1 - w.interp_weight) w.alpha
  | _, _ => Except.error "predict_interpolate: style image is None"

/-- One tick of the loop: the `cap.read()` result, the per-tick randomness
(noise frame, periodic auto-reload, the two 'r'-key reloads), a `scale`
trackbar drag delivered during the preceding input poll, and the key returned
by `cv2.waitKey`. -/
structure Tick where
  ret : Bool
  frame : Img
  noiseSeed : Nat
  autoSeed : Nat
  keySeed0 : Nat
  keySeed1 : Nat
  scaleEvent : Option Nat
  key : Option Char
deriving Repr, DecidableEq

/-- A tick whose read succeeded, with no UI events and fixed randomness. -/
def mkGoodTick (f : Img) : Tick := ⟨true, f, 0, 0, 0, 0, none, none⟩

/-- The mutable state of `main`'s loop: the style window, the loop-local
`keep_colors` flag, the frame counter `count`, the frames handed to
`cv2.imshow('AdaIN Style', ·)` (`shown`), the frames handed to
`video_writer.write` (`written`), and an uncaught Python exception, if one
escaped the loop. -/
structure LoopState where
  w : StyleWindow
  keep_colors : Bool
  count : Nat
  shown : List Img
  written : List Img
  error : Option String
deriving Repr, DecidableEq

/-- Loop state on entry to the `while` loop (src/webcam.py lines 139-141). -/
def initState (cfg : Config) (w : StyleWindow) : LoopState :=
  ⟨w, cfg.keep_colors0, 0, [], [], none⟩

/-- The video-out shape chosen before the loop (src/webcam.py lines 124-135):
the sample frame is resized by `args.scale`, giving `img_shape = (h, w, 3)`;
`out_shape` is `(w + h, h)` in concat mode (room for the style image) and
`(w, h)` otherwise — OpenCV writer sizes are (width, height). -/
def outShape (cfg : Config) (firstFrame : Img) : Nat × Nat :=
  let img_shape := shape (Img.resizedScale firstFrame cfg.scale cfg.scale)
  if cfg.concat then (img_shape.2 + img_shape.1, img_shape.1)
  else (img_shape.2, img_shape.1)

/-- One iteration of the `while(True)` body (src/webcam.py lines 144-199) for
a tick whose `cap.read()` returned `ret = True`.  Returns the state at the end
of the iteration — or, when a Python exception is raised mid-iteration, the
state at the raise point with `error` set — together with a flag telling the
driver to leave the loop (uncaught exception, or the 'q' key).  Note there is
no `try`/`except` anywhere in the body: any engine, load or name-resolution
failure escapes. -/
def stepTick (cfg : Config) (pE : PredictFn) (iE : InterpFn) (os : Nat × Nat)
    (st : LoopState) (t : Tick) : LoopState × Bool :=
  let w := match t.scaleEvent with
    | some v => set_scale st.w v
    | none => st.w
  let count := st.count + 1
  let image_rgb := contentInput cfg t.noiseSeed w.scale t.frame
  match (if 0 < cfg.randomN ∧ count % cfg.randomN = 0
         then set_style w none true t.autoSeed 0 else some w) with
  | none =>
      ({ st with
          w := w
          count := count
          error := some "IndexError: list index out of range" }, true)
  | some w =>
  match (if st.keep_colors then keepColorsStep else Except.ok ()) with
  | .error e => ({ st with w := w, count := count, error := some e }, true)
  | .ok _ =>
  match (if cfg.interpolate then dispatchInterpolate iE w image_rgb
         else dispatchPredict pE cfg.concat w image_rgb) with
  | .error e => ({ st with w := w, count := count, error := some e }, true)
  | .ok stylized_rgb =>
  let stylized_bgr := Img.toBGR stylized_rgb
  let stylized_bgr :=
    if cfg.video_out then Img.resizedTo stylized_bgr os.1 os.2 else stylized_bgr
  let written := if cfg.video_out then st.written ++ [stylized_bgr] else st.written
  let shown := st.shown ++ [stylized_bgr]
  match t.key with
  | some k =>
    if k = 'r' then
      match set_style w none true t.keySeed0 0 with
      | none => (⟨w, st.keep_colors, count, shown, written,
                  some "IndexError: list index out of range"⟩, true)
      | some w =>
        if cfg.interpolate then
          match set_style w none true t.keySeed1 1 with
          | none => (⟨w, st.keep_colors, count, shown, written,
                      some "IndexError: list index out of range"⟩, true)
          | some w => (⟨w, st.keep_colors, count, shown, written, st.error⟩, false)
        else (⟨w, st.keep_colors, count, shown, written, st.error⟩, false)
    else if k = 'c' then (⟨w, !st.keep_colors, count, shown, written, st.error⟩, false)
    else if k = 'q' then (⟨w, st.keep_colors, count, shown, written, st.error⟩, true)
    else (⟨w, st.keep_colors, count, shown, written, st.error⟩, false)
  | none => (⟨w, st.keep_colors, count, shown, written, st.error⟩, false)

/-- The `while(True)` driver (src/webcam.py lines 143-201): a failed read
(`ret` false) breaks out of the loop; otherwise the body runs and the loop
continues unless the body quit or raised. -/
def runLoop (cfg : Config) (pE : PredictFn) (iE : InterpFn) (os : Nat × Nat) :
    LoopState → List Tick → LoopState
  | st, [] => st
  | st, t :: ts =>
    if t.ret then
      match stepTick cfg pE iE os st t with
      | (st', true) => st'
      | (st', false) => runLoop cfg pE iE os st' ts
    else st

/-- The configuration with every optional mode off: no noise synthesis, no
periodic reload, no interpolation, no color preservation, no concat, no video
file, content scale 1 (the argparse defaults in src/webcam.py). -/
def baseConfig : Config :=
  ⟨false, 0, false, false, false, false, 1⟩

/-! ### Sequences of size/crop trackbar calls (for the clamping invariant) -/

/-- A trackbar event on the `size` or `crop size` sliders. -/
inductive SizeCall where
  | size (v : Nat)
  | crop (v : Nat)
deriving Repr, DecidableEq

/-- Dispatch one size/crop trackbar event to its `StyleWindow` callback. -/
def sizeStep (w : StyleWindow) : SizeCall → Option StyleWindow
  | .size v => set_size w v
  | .crop v => set_crop_size w v

/-- Run a sequence of size/crop trackbar events, recording the state after
each call; `none` if any call raised. -/
def runSizeCalls (w : StyleWindow) : List SizeCall → Option (List StyleWindow)
  | [] => some []
  | c :: cs =>
    match sizeStep w c with
    | none => none
    | some w' =>
      match runSizeCalls w' cs with
      | none => none
      | some tr => some (w' :: tr)

/-! ### Concrete instances used to witness the theorems -/

/-- A concrete window over a two-image catalog, both slots loaded. -/
def demoW : StyleWindow :=
  ⟨["a.jpg", "b.jpg"], some (.styleCrop "a.jpg" 512 256),
   some (.styleCrop "b.jpg" 512 256), 512, 256, 1, 1, 0, 1⟩

/-- The window `demoW` after `set_idx 1`: slot 0 reloaded from `b.jpg`. -/
def demoW1 : StyleWindow :=
  ⟨["a.jpg", "b.jpg"], some (.styleCrop "b.jpg" 512 256),
   some (.styleCrop "b.jpg" 512 256), 512, 256, 1, 1, 1, 1⟩

/-- An interpolation engine that records its call symbolically. -/
def demoInterpE : InterpFn :=
  fun c s0 s1 w0 w1 a => Except.ok (.predictedInterp c s0 s1 w0 w1 a)

/-- A predict engine that records its call symbolically. -/
def demoPredictE : PredictFn :=
  fun c s a => Except.ok (.predicted c s a)

/-- A concrete 4×4 camera frame with one-byte payload `i`. -/
def demoFrame (i : Nat) : Img := .camera 4 4 [i]

/-- An engine mock for the ten-frame scenario: raises a dimension-mismatch
error on the content derived from the fifth frame, succeeds on every other. -/
def c2Engine : PredictFn := fun c s a =>
  if c = contentInput baseConfig 0 demoW.scale (demoFrame 5) then
    Except.error "ValueError: dimension mismatch"
  else Except.ok (.predicted c s a)

/-- The ten-frame run under the default configuration with `c2Engine`. -/
def c2Run : LoopState :=
  runLoop baseConfig c2Engine demoInterpE (0, 0) (initState baseConfig demoW)
    (((List.range 10).map fun i => demoFrame (i + 1)).map mkGoodTick)

/-- The default configuration with keep-colors enabled. -/
def c3cfg : Config := { baseConfig with keep_colors0 := true }

/-- The keep-colors run: one good tick. -/
def c3Run : LoopState :=
  runLoop c3cfg demoPredictE demoInterpE (0, 0) (initState c3cfg demoW)
    [mkGoodTick (demoFrame 0)]

/-- The default configuration with video output enabled. -/
def c4cfg : Config := { baseConfig with video_out := true }

/-- The frame that a one-tick `c4cfg` run hands to the video writer. -/
def c4img : Img :=
  .resizedTo (.toBGR (.predicted (contentInput c4cfg 0 1 (demoFrame 1))
    (.styleCrop "a.jpg" 512 256) 1)) 4 4

/-!
## Theorems
-/

/-- Normal form of a non-random reload (`set_style()` with no index): slot 0
is reloaded from the currently stored index. -/
theorem set_style_load (w : StyleWindow) (f : String)
    (hf : w.style_imgs[w.idx]? = some f) :
    set_style w none false 0 0 =
      some { w with style_rgb0 := some (get_img_crop f w.img_size w.crop_size) } := by
  simp [set_style, setSlot, hf]

/-- Normal form of `set_style(idx)`: the index is stored, slot 0 reloaded. -/
theorem set_style_idx_load (w : StyleWindow) (i : Nat) (f : String)
    (hf : w.style_imgs[i]? = some f) :
    set_style w (some i) false 0 0 =
      some { w with
              idx := i
              style_rgb0 := some (get_img_crop f w.img_size w.crop_size) } := by
  simp [set_style, setSlot, hf]

/-- A failed lookup of the stored index makes a non-random reload raise. -/
theorem set_style_load_fail (w : StyleWindow)
    (hf : w.style_imgs[w.idx]? = none) :
    set_style w none false 0 0 = none := by
  simp [set_style, hf]

/-- C8: for every argument `v`, `set_scale v` stores `v/100` as the content
scale and changes nothing else — both style slot buffers, the stored style
index, the target size, the crop size, alpha, the interpolation weight and
the catalog are unchanged, so no style reload occurs. -/
theorem C8_set_scale_only_scale (w : StyleWindow) (v : Nat) :
    (set_scale w v).scale = (v : ℚ) / 100 ∧
    (set_scale w v).style_rgb0 = w.style_rgb0 ∧
    (set_scale w v).style_rgb1 = w.style_rgb1 ∧
    (set_scale w v).idx = w.idx ∧
    (set_scale w v).img_size = w.img_size ∧
    (set_scale w v).crop_size = w.crop_size ∧
    (set_scale w v).alpha = w.alpha ∧
    (set_scale w v).interp_weight = w.interp_weight ∧
    (set_scale w v).style_imgs = w.style_imgs :=
  ⟨rfl, rfl, rfl, rfl, rfl, rfl, rfl, rfl, rfl⟩

/-- C10: the mutators `set_idx`, `set_size` and `set_crop_size` reload only
the primary slot `style_rgbs[0]`; the secondary slot `style_rgbs[1]` is never
modified by any of them, so under interpolation it stays stale at its
previously loaded size and crop. -/
theorem C10_secondary_slot_never_reloaded (w : StyleWindow) (i v u : Nat) :
    (∀ w', set_idx w i = some w' → w'.style_rgb1 = w.style_rgb1) ∧
    (∀ w', set_size w v = some w' → w'.style_rgb1 = w.style_rgb1) ∧
    (∀ w', set_crop_size w u = some w' → w'.style_rgb1 = w.style_rgb1) := by
  refine ⟨?_, ?_, ?_⟩ <;> intro w' h <;>
    simp only [set_idx, set_size, set_crop_size, set_style, setSlot,
      Bool.false_eq_true, if_false] at h <;>
    split at h <;>
    first
      | exact Option.noConfusion h
      | (injection h with h; subst h; rfl)

/-- C10 witness: instantiated at `demoW` with index 1. -/
theorem C10_witness :
    set_idx demoW 1 = some demoW1 ∧ demoW1.style_rgb1 = demoW.style_rgb1 :=
  ⟨by decide,
   (C10_secondary_slot_never_reloaded demoW 1 0 0).1 demoW1 (by decide)⟩

/-- C7: calling `set_idx i` twice in a row with the same in-range `i`, the
catalog and size/crop parameters being unchanged in between (nothing in
`set_idx` changes them), loads the same style buffer into slot 0 both
times. -/
theorem C7_set_idx_idempotent (w : StyleWindow) (i : Nat)
    (hi : i < w.style_imgs.length) :
    ∃ w1 w2, set_idx w i = some w1 ∧ set_idx w1 i = some w2 ∧
      w1.style_rgb0 = w2.style_rgb0 := by
  cases hg : w.style_imgs[i]? with
  | none => exact absurd (List.getElem?_eq_none_iff.mp hg) (by omega)
  | some f =>
      refine ⟨{ w with
                 idx := i
                 style_rgb0 := some (get_img_crop f w.img_size w.crop_size) },
              { w with
                 idx := i
                 style_rgb0 := some (get_img_crop f w.img_size w.crop_size) },
              ?_, ?_, rfl⟩
      · exact set_style_idx_load w i f hg
      · exact set_style_idx_load
          { w with
             idx := i
             style_rgb0 := some (get_img_crop f w.img_size w.crop_size) } i f hg

/-- C7 witness: instantiated at `demoW` with index 1. -/
theorem C7_witness :
    demoW.style_imgs.length > 1 ∧
    ∃ w1 w2, set_idx demoW 1 = some w1 ∧ set_idx w1 1 = some w2 ∧
      w1.style_rgb0 = w2.style_rgb0 :=
  ⟨by decide, C7_set_idx_idempotent demoW 1 (by decide)⟩

/-- C5: `set_interp v` stores `v/100` as the interpolation weight, and the
interpolation branch of the dispatcher invokes the interpolated engine with
exactly the weights `[v/100, 1 - v/100]` over slot 0 and slot 1, the two
loaded style buffers, and the current blend alpha. -/
theorem C5_interp_weights (iE : InterpFn) (w : StyleWindow) (v : Nat)
    (img s0 s1 : Img) (h0 : w.style_rgb0 = some s0) (h1 : w.style_rgb1 = some s1) :
    (set_interp w v).interp_weight = (v : ℚ) / 100 ∧
    dispatchInterpolate iE (set_interp w v) img =
      iE img s0 s1 ((v : ℚ) / 100) (1 - (v : ℚ) / 100) w.alpha := by
  refine ⟨rfl, ?_⟩
  simp [dispatchInterpolate, set_interp, h0, h1]

/-- C5 witness: instantiated at `demoW` with trackbar value 30. -/
theorem C5_witness :
    demoW.style_rgb0 = some (.styleCrop "a.jpg" 512 256) ∧
    demoW.style_rgb1 = some (.styleCrop "b.jpg" 512 256) ∧
    ((set_interp demoW 30).interp_weight = (30 : ℚ) / 100 ∧
      dispatchInterpolate demoInterpE (set_interp demoW 30) (demoFrame 0) =
        demoInterpE (demoFrame 0) (.styleCrop "a.jpg" 512 256)
          (.styleCrop "b.jpg" 512 256) ((30 : ℚ) / 100) (1 - (30 : ℚ) / 100)
          demoW.alpha) :=
  ⟨rfl, rfl,
   C5_interp_weights demoInterpE demoW 30 (demoFrame 0) _ _ rfl rfl⟩

/-- C6: when the catalog holds exactly one image, the `index` trackbar is
never created by `__init__`, and every random style selection
(`set_style(random=True)`, any slot) resolves the index to 0. -/
theorem C6_single_image_catalog (files : List String) (img_size : Nat)
    (scale alpha : ℚ) (interpolate : Bool) (r0 r1 : Nat)
    (hlen : files.length = 1) :
    "index" ∉ (styleWindowInit files img_size scale alpha interpolate r0 r1).trackbars ∧
    ∀ (w : StyleWindow) (r si : Nat) (w' : StyleWindow), w.style_imgs = files →
      set_style w none true r si = some w' → w'.idx = 0 := by
  constructor
  · unfold styleWindowInit
    have h2 : ¬ (files.length > 1) := by omega
    cases hs0 : set_style ⟨files, none, none, img_size, 256, scale, alpha, 0, 1⟩
        none true r0 0 with
    | none => simp [hs0, hlen]
    | some w0 =>
        cases hi : interpolate with
        | false => simp [hs0, hlen]
        | true =>
            cases hs1 : set_style w0 none true r1 1 with
            | none => simp [hs0, hs1, hlen]
            | some w1 => simp [hs0, hs1, hlen]
  · intro w r si w' hw h
    simp only [set_style, hw, hlen, Nat.mod_one, if_true] at h
    split at h
    · exact Option.noConfusion h
    · unfold setSlot at h
      split at h <;>
        first
          | exact Option.noConfusion h
          | (injection h with h; subst h; rfl)

/-- C6 witness: a one-image catalog, random selection with seed 7. -/
theorem C6_witness :
    (["only.jpg"] : List String).length = 1 ∧
    "index" ∉ (styleWindowInit ["only.jpg"] 512 1 1 false 3 4).trackbars ∧
    ∀ w' : StyleWindow,
      set_style ⟨["only.jpg"], none, none, 512, 256, 1, 1, 0, 1⟩ none true 7 0 = some w' →
      w'.idx = 0 :=
  ⟨by decide,
   (C6_single_image_catalog ["only.jpg"] 512 1 1 false 3 4 (by decide)).1,
   fun w' h =>
     (C6_single_image_catalog ["only.jpg"] 512 1 1 false 3 4 (by decide)).2
       ⟨["only.jpg"], none, none, 512, 256, 1, 1, 0, 1⟩ 7 0 w' rfl h⟩

/-- Any size/crop trackbar call on a window whose stored index is in range
succeeds, clamps so that `crop_size ≤ img_size`, and preserves the index and
the catalog. -/
theorem sizeStep_ok (w : StyleWindow) (c : SizeCall)
    (h : w.idx < w.style_imgs.length) :
    ∃ w', sizeStep w c = some w' ∧ w'.crop_size ≤ w'.img_size ∧
      w'.idx = w.idx ∧ w'.style_imgs = w.style_imgs := by
  cases hg : w.style_imgs[w.idx]? with
  | none => exact absurd (List.getElem?_eq_none_iff.mp hg) (by omega)
  | some f =>
      cases c with
      | size v =>
          refine ⟨{ w with
                     img_size := max v w.crop_size
                     style_rgb0 := some (get_img_crop f (max v w.crop_size) w.crop_size) },
                  ?_, ?_, rfl, rfl⟩
          · exact set_style_load { w with img_size := max v w.crop_size } f hg
          · exact Nat.le_max_right v w.crop_size
      | crop v =>
          refine ⟨{ w with
                     crop_size := min v w.img_size
                     style_rgb0 := some (get_img_crop f w.img_size (min v w.img_size)) },
                  ?_, ?_, rfl, rfl⟩
          · exact set_style_load { w with crop_size := min v w.img_size } f hg
          · exact Nat.min_le_right v w.img_size

/-- C1: for every sequence of `set_size`/`set_crop_size` calls with arbitrary
arguments, in any order, no call throws and after each call the invariant
`crop_size ≤ img_size` holds (`set_size` clamps to `max(v, crop_size)`,
`set_crop_size` clamps to `min(v, img_size)`). -/
theorem C1_size_crop_invariant (w : StyleWindow) (calls : List SizeCall)
    (h : w.idx < w.style_imgs.length) :
    ∃ trace, runSizeCalls w calls = some trace ∧
      ∀ w' ∈ trace, w'.crop_size ≤ w'.img_size := by
  induction calls generalizing w with
  | nil => exact ⟨[], rfl, by simp⟩
  | cons c cs ih =>
      obtain ⟨w', hs, hinv, hidx, himgs⟩ := sizeStep_ok w c h
      obtain ⟨tr, htr, hall⟩ := ih w' (by rw [hidx, himgs]; exact h)
      refine ⟨w' :: tr, ?_, ?_⟩
      · simp [runSizeCalls, hs, htr]
      · intro x hx
        rcases List.mem_cons.mp hx with rfl | hx
        · exact hinv
        · exact hall x hx

/-- C1 witness: an adversarial sequence on `demoW` — shrink the target below
the crop, then push the crop above the target. -/
theorem C1_witness :
    demoW.idx < demoW.style_imgs.length ∧
    ∃ trace, runSizeCalls demoW [.size 100, .crop 3000, .size 0] = some trace ∧
      ∀ w' ∈ trace, w'.crop_size ≤ w'.img_size :=
  ⟨by decide, C1_size_crop_invariant demoW [.size 100, .crop 3000, .size 0] (by decide)⟩

/-- C9: in noise mode the content image handed to inference is independent of
the camera frame's pixel values: two frames of equal shape, under the same
random source, scale (and any fixed style and alpha), yield the same content
input — the frame is replaced by uniform random noise of its own shape passed
through a Gaussian blur with sigma 0.5. -/
theorem C9_noise_content_independent (cfg : Config) (seed : Nat) (scale : ℚ)
    (f1 f2 : Img) (hn : cfg.noise = true) (hshape : shape f1 = shape f2) :
    contentInput cfg seed scale f1 = contentInput cfg seed scale f2 := by
  simp [contentInput, hn, shape, hshape]

/-- C9 witness: two frames with different pixel payloads but equal 4×4 shape
produce identical noise-mode content inputs. -/
theorem C9_witness :
    demoFrame 0 ≠ demoFrame 1 ∧
    ({ baseConfig with noise := true } : Config).noise = true ∧
    shape (demoFrame 0) = shape (demoFrame 1) ∧
    contentInput { baseConfig with noise := true } 7 1 (demoFrame 0) =
      contentInput { baseConfig with noise := true } 7 1 (demoFrame 1) :=
  ⟨by decide, rfl, rfl,
   C9_noise_content_independent { baseConfig with noise := true } 7 1
     (demoFrame 0) (demoFrame 1) rfl rfl⟩

/-- C3 (code bug): the keep-colors branch cannot evaluate.  `main` never binds
a local `content_img`, and no `StyleWindow` method ever assigns an attribute
`style_rgb` (only the list `style_rgbs`), so the right-hand side of line 162
raises on its first evaluation; concretely, a one-tick run with keep-colors
enabled errors with the AttributeError and nothing reaches the sink, so
inference never receives a recolored style. -/
theorem C3_keep_colors_branch_raises :
    "content_img" ∉ mainAssignedLocals ∧
    "style_rgb" ∉ styleWindowAttrs ∧
    keepColorsStep =
      Except.error "AttributeError: 'StyleWindow' object has no attribute 'style_rgb'" ∧
    c3Run.error =
      some "AttributeError: 'StyleWindow' object has no attribute 'style_rgb'" ∧
    c3Run.shown = [] :=
  ⟨by decide, by decide, rfl, by decide, by decide⟩

/-- C2 counterexample: with the Inference Engine raising on the fifth frame of
ten, the loop does not complete all ten ticks (the counter stops at 5), only
four frames — not nine — reach the Output Sink, and the exception escapes the
loop: there is no `try`/`except` in the body (src/webcam.py lines 143-201). -/
theorem C2_counterexample :
    c2Run.error = some "ValueError: dimension mismatch" ∧
    c2Run.count = 5 ∧ c2Run.shown.length = 4 ∧
    ¬ (c2Run.count = 10 ∧ c2Run.shown.length = 9 ∧ c2Run.error = none) := by
  decide

/-- A default-configuration tick on which the engine succeeds leaves the
window and flags unchanged, bumps the counter, appends the BGR-converted
engine output to the display sink, and keeps the loop going. -/
theorem stepTick_good (pE : PredictFn) (iE : InterpFn) (os : Nat × Nat)
    (st : LoopState) (f o s0 : Img)
    (hkc : st.keep_colors = false)
    (hs0 : st.w.style_rgb0 = some s0)
    (hok : pE (contentInput baseConfig 0 st.w.scale f) s0 st.w.alpha = Except.ok o) :
    stepTick baseConfig pE iE os st (mkGoodTick f) =
      (⟨st.w, st.keep_colors, st.count + 1, st.shown ++ [Img.toBGR o],
        st.written, st.error⟩, false) := by
  have hok' := hok
  simp only [baseConfig] at hok'
  simp [stepTick, mkGoodTick, baseConfig, dispatchPredict, hkc, hs0, hok']

/-- A default-configuration tick on which the engine raises stops the loop at
the raise point: the counter was already bumped, nothing reaches the sink,
and the error escapes. -/
theorem stepTick_bad (pE : PredictFn) (iE : InterpFn) (os : Nat × Nat)
    (st : LoopState) (f s0 : Img) (e : String)
    (hkc : st.keep_colors = false)
    (hs0 : st.w.style_rgb0 = some s0)
    (hbad : pE (contentInput baseConfig 0 st.w.scale f) s0 st.w.alpha = Except.error e) :
    stepTick baseConfig pE iE os st (mkGoodTick f) =
      ({ st with count := st.count + 1, error := some e }, true) := by
  have hbad' := hbad
  simp only [baseConfig] at hbad'
  simp [stepTick, mkGoodTick, baseConfig, dispatchPredict, hkc, hs0, hbad']

/-- Through any run of good frames followed by a frame on which the engine
raises, the error escapes, the counter advances past the good frames onto the
failing one, and only the good frames reach the sink. -/
theorem runLoop_error_escapes (pE : PredictFn) (iE : InterpFn) (s0 bad : Img)
    (e : String) (pre : List Img) :
    ∀ (st : LoopState) (post : List Img),
      st.keep_colors = false → st.w.style_rgb0 = some s0 →
      (∀ f ∈ pre, ∃ o, pE (contentInput baseConfig 0 st.w.scale f) s0 st.w.alpha
        = Except.ok o) →
      pE (contentInput baseConfig 0 st.w.scale bad) s0 st.w.alpha = Except.error e →
      (runLoop baseConfig pE iE (0, 0) st
          ((pre ++ bad :: post).map mkGoodTick)).error = some e ∧
      (runLoop baseConfig pE iE (0, 0) st
          ((pre ++ bad :: post).map mkGoodTick)).count = st.count + pre.length + 1 ∧
      (runLoop baseConfig pE iE (0, 0) st
          ((pre ++ bad :: post).map mkGoodTick)).shown.length
        = st.shown.length + pre.length := by
  induction pre with
  | nil =>
      intro st post hkc hs0 _ hbad
      rw [List.nil_append, List.map_cons, runLoop,
        if_pos (show (mkGoodTick bad).ret = true from rfl),
        stepTick_bad pE iE (0, 0) st bad s0 e hkc hs0 hbad]
      exact ⟨rfl, rfl, rfl⟩
  | cons f fs ih =>
      intro st post hkc hs0 hok hbad
      obtain ⟨o, ho⟩ := hok f (List.mem_cons_self f fs)
      have hgoal : runLoop baseConfig pE iE (0, 0) st
          (((f :: fs) ++ bad :: post).map mkGoodTick) =
          runLoop baseConfig pE iE (0, 0)
            ⟨st.w, st.keep_colors, st.count + 1, st.shown ++ [Img.toBGR o],
             st.written, st.error⟩ ((fs ++ bad :: post).map mkGoodTick) := by
        rw [List.cons_append, List.map_cons]
        simp only [runLoop]
        rw [if_pos (show (mkGoodTick f).ret = true from rfl),
          stepTick_good pE iE (0, 0) st f o s0 hkc hs0 ho]
      have hrec := ih ⟨st.w, st.keep_colors, st.count + 1, st.shown ++ [Img.toBGR o],
        st.written, st.error⟩ post hkc hs0
        (fun g hg => hok g (List.mem_cons_of_mem f hg)) hbad
      have e2 : (⟨st.w, st.keep_colors, st.count + 1, st.shown ++ [Img.toBGR o],
          st.written, st.error⟩ : LoopState).count = st.count + 1 := rfl
      have e3 : (⟨st.w, st.keep_colors, st.count + 1, st.shown ++ [Img.toBGR o],
          st.written, st.error⟩ : LoopState).shown = st.shown ++ [Img.toBGR o] := rfl
      rw [hgoal]
      refine ⟨hrec.1, ?_, ?_⟩
      · have h2 := hrec.2.1
        rw [e2] at h2
        rw [h2]
        simp only [List.length_cons]
        omega
      · have h3 := hrec.2.2
        rw [e3] at h3
        rw [h3]
        simp only [List.length_append, List.length_cons, List.length_nil]
        omega

/-- C2 (amended): the loop has no error handling around inference: when the
engine raises on a frame, the exception escapes the loop and ends the
session; only the frames processed before the failing one reach the Output
Sink, the counter stops on the failing frame, and the remaining ticks never
run.  (The claim as stated — error caught, frame dropped, loop continues —
is refuted by `C2_counterexample`.) -/
theorem C2_error_not_caught (pE : PredictFn) (iE : InterpFn) (w : StyleWindow)
    (s0 bad : Img) (e : String) (pre post : List Img)
    (hs0 : w.style_rgb0 = some s0)
    (hok : ∀ f ∈ pre, ∃ o, pE (contentInput baseConfig 0 w.scale f) s0 w.alpha
      = Except.ok o)
    (hbad : pE (contentInput baseConfig 0 w.scale bad) s0 w.alpha = Except.error e) :
    (runLoop baseConfig pE iE (0, 0) (initState baseConfig w)
        ((pre ++ bad :: post).map mkGoodTick)).error = some e ∧
    (runLoop baseConfig pE iE (0, 0) (initState baseConfig w)
        ((pre ++ bad :: post).map mkGoodTick)).count = pre.length + 1 ∧
    (runLoop baseConfig pE iE (0, 0) (initState baseConfig w)
        ((pre ++ bad :: post).map mkGoodTick)).shown.length = pre.length := by
  have h := runLoop_error_escapes pE iE s0 bad e pre (initState baseConfig w) post
    rfl hs0 hok hbad
  simpa [initState] using h

/-- C2 amended-claim witness: the engine raising on frame five of ten — the
error escapes, the counter stops at five and four frames reach the sink. -/
theorem C2_error_not_caught_witness :
    demoW.style_rgb0 = some (Img.styleCrop "a.jpg" 512 256) ∧
    c2Engine (contentInput baseConfig 0 demoW.scale (demoFrame 5))
      (Img.styleCrop "a.jpg" 512 256) demoW.alpha =
        Except.error "ValueError: dimension mismatch" ∧
    ((runLoop baseConfig c2Engine demoInterpE (0, 0) (initState baseConfig demoW)
        (([demoFrame 1, demoFrame 2, demoFrame 3, demoFrame 4] ++ demoFrame 5 ::
          [demoFrame 6, demoFrame 7, demoFrame 8, demoFrame 9, demoFrame 10]).map
          mkGoodTick)).error = some "ValueError: dimension mismatch" ∧
      (runLoop baseConfig c2Engine demoInterpE (0, 0) (initState baseConfig demoW)
        (([demoFrame 1, demoFrame 2, demoFrame 3, demoFrame 4] ++ demoFrame 5 ::
          [demoFrame 6, demoFrame 7, demoFrame 8, demoFrame 9, demoFrame 10]).map
          mkGoodTick)).count = 5 ∧
      (runLoop baseConfig c2Engine demoInterpE (0, 0) (initState baseConfig demoW)
        (([demoFrame 1, demoFrame 2, demoFrame 3, demoFrame 4] ++ demoFrame 5 ::
          [demoFrame 6, demoFrame 7, demoFrame 8, demoFrame 9, demoFrame 10]).map
          mkGoodTick)).shown.length = 4) :=
  ⟨rfl, rfl,
   C2_error_not_caught c2Engine demoInterpE demoW (Img.styleCrop "a.jpg" 512 256)
     (demoFrame 5) "ValueError: dimension mismatch"
     [demoFrame 1, demoFrame 2, demoFrame 3, demoFrame 4]
     [demoFrame 6, demoFrame 7, demoFrame 8, demoFrame 9, demoFrame 10]
     rfl (by intro f hf; fin_cases hf <;> exact ⟨_, rfl⟩) rfl⟩

/-- Any single tick only ever appends frames that were first resized to the
locked video-out dimensions. -/
theorem stepTick_written (cfg : Config) (pE : PredictFn) (iE : InterpFn)
    (os : Nat × Nat) (st : LoopState) (t : Tick) :
    ∀ i ∈ (stepTick cfg pE iE os st t).1.written,
      i ∈ st.written ∨ ∃ x, i = Img.resizedTo x os.1 os.2 := by
  intro i hi
  simp only [stepTick] at hi
  repeat' split at hi
  all_goals
    first
      | exact Or.inl hi
      | (simp only [List.mem_append, List.mem_singleton] at hi
         rcases hi with hi | hi
         · exact Or.inl hi
         · exact Or.inr ⟨_, hi⟩)

/-- Across a whole run, every frame in the video sink beyond those already
there was resized to the locked dimensions before being written. -/
theorem runLoop_written (cfg : Config) (pE : PredictFn) (iE : InterpFn)
    (os : Nat × Nat) :
    ∀ (ticks : List Tick) (st : LoopState),
      ∀ i ∈ (runLoop cfg pE iE os st ticks).written,
        i ∈ st.written ∨ ∃ x, i = Img.resizedTo x os.1 os.2 := by
  intro ticks
  induction ticks with
  | nil => intro st i hi; exact Or.inl hi
  | cons t ts ih =>
      intro st i hi
      rw [runLoop] at hi
      by_cases hr : t.ret
      · rw [if_pos hr] at hi
        cases hst : stepTick cfg pE iE os st t with
        | mk st' stop =>
            rw [hst] at hi
            have hsub := stepTick_written cfg pE iE os st t
            rw [hst] at hsub
            cases stop with
            | true => exact hsub i hi
            | false =>
                rcases ih st' i hi with hmem | hres
                · exact hsub i hmem
                · exact Or.inr hres
      · rw [if_neg hr] at hi
        exact Or.inl hi

/-- C4: with video output enabled, the sink dimensions are computed exactly
once, before the loop, from the first sample frame's post-scale shape —
widened by the frame height in concat mode — and every frame subsequently
written during the session is one that was resized to exactly those
dimensions first, regardless of the ticks' mid-session scale changes or any
other UI event; the locked dimensions themselves never change. -/
theorem C4_video_dimension_lock (cfg : Config) (pE : PredictFn) (iE : InterpFn)
    (firstFrame : Img) (w0 : StyleWindow) (ticks : List Tick)
    (_hvid : cfg.video_out = true) :
    (outShape cfg firstFrame =
      (let s := shape (Img.resizedScale firstFrame cfg.scale cfg.scale)
       if cfg.concat then (s.2 + s.1, s.1) else (s.2, s.1))) ∧
    ∀ i ∈ (runLoop cfg pE iE (outShape cfg firstFrame)
             (initState cfg w0) ticks).written,
      (∃ x, i = Img.resizedTo x (outShape cfg firstFrame).1
        (outShape cfg firstFrame).2) ∧
      shape i = ((outShape cfg firstFrame).2, (outShape cfg firstFrame).1) := by
  refine ⟨rfl, ?_⟩
  intro i hi
  rcases runLoop_written cfg pE iE (outShape cfg firstFrame) ticks
      (initState cfg w0) i hi with hmem | ⟨x, rfl⟩
  · simp [initState] at hmem
  · exact ⟨⟨x, rfl⟩, rfl⟩

/-- C4 witness: a one-tick run with video out enabled writes exactly the
engine output resized to the locked 4×4 dimensions. -/
theorem C4_witness :
    c4cfg.video_out = true ∧
    c4img ∈ (runLoop c4cfg demoPredictE demoInterpE (outShape c4cfg (demoFrame 0))
      (initState c4cfg demoW) [mkGoodTick (demoFrame 1)]).written ∧
    (∃ x, c4img = Img.resizedTo x (outShape c4cfg (demoFrame 0)).1
      (outShape c4cfg (demoFrame 0)).2) ∧
    shape c4img =
      ((outShape c4cfg (demoFrame 0)).2, (outShape c4cfg (demoFrame 0)).1) :=
  ⟨rfl, by decide,
   (C4_video_dimension_lock c4cfg demoPredictE demoInterpE (demoFrame 0) demoW
       [mkGoodTick (demoFrame 1)] rfl).2 c4img (by decide)⟩

end Webcam
